import Mathlib

/-!
Verification of the report-assembly workflow of the `airesearchassistant`
repository (`app/backend/research_graph.py`, `app/backend/analyst_subgraph.py`,
`app/backend/research_schema.py`, `app/backend/llm_wrapper.py`).

Python strings are modelled as `List Char`; Python `TypedDict` states become
structures; a graph node returns a partial state update (one `Option` per
channel).  The Python string operations used by the code — `startswith`,
`strip(chars)`, the `in` substring test and `split(sep)` — are embedded
one-for-one below.
-/

namespace ResearchAssistant

/-- Convert a Lean string literal into the `List Char` text model. -/
def str (s : String) : List Char := s.toList

/-- Python `str.strip(chars)`: removes from BOTH ends of `s` every character
that occurs in `chars`.  It is a character-class operation, not removal of a
literal substring. -/
def pyStrip (chars s : List Char) : List Char :=
  ((s.dropWhile (fun c => c ∈ chars)).reverse.dropWhile (fun c => c ∈ chars)).reverse

/-- First occurrence of the separator `sep` in a text: returns the text
before the occurrence and the text after it, or `none` when `sep` does not
occur (for non-empty `sep`). -/
def findOcc (sep : List Char) : List Char → Option (List Char × List Char)
  | [] => none
  | c :: cs =>
    if sep.isPrefixOf (c :: cs) then some ([], (c :: cs).drop sep.length)
    else
      match findOcc sep cs with
      | none => none
      | some (pre, post) => some (c :: pre, post)

/-- Fuelled worker for `pySplit`. -/
def pySplitFuel (sep : List Char) : Nat → List Char → List (List Char)
  | 0, s => [s]
  | fuel + 1, s =>
    match findOcc sep s with
    | none => [s]
    | some (pre, post) => pre :: pySplitFuel sep fuel post

/-- Python `str.split(sep)` for a non-empty separator: cut at every
(non-overlapping, leftmost-first) occurrence of `sep`. -/
def pySplit (sep s : List Char) : List (List Char) :=
  pySplitFuel sep (s.length + 1) s

/-- Analyst persona: `{name, affiliation, role, description}` (declared in
`analyst_schema.py`, which is not among the sources; field layout per the
spec's data model, section "Analyst"). -/
structure Analyst where
  name : List Char
  affiliation : List Char
  role : List Char
  description : List Char
deriving DecidableEq

/-- A chat message sent to the model (`SystemMessage` / `HumanMessage`). -/
inductive ChatMessage where
  | system : List Char → ChatMessage
  | human : List Char → ChatMessage
deriving DecidableEq

/-- The model's reply object (`AIMessage`): a wrapper holding the reply text
in its `content` attribute. -/
structure AIMessage where
  content : List Char
deriving DecidableEq

/-- The language model handle (`llm` from `llm_wrapper.py`): `invoke` maps a
list of messages to a reply message object.  Modelled as an arbitrary
function, since the model's behaviour is external. -/
structure LLM where
  invoke : List ChatMessage → AIMessage

/-- A Python runtime value stored into a state channel: the code stores
either a plain string or a whole `AIMessage` object. -/
inductive PyVal where
  | ofStr : List Char → PyVal
  | ofMsg : AIMessage → PyVal
deriving DecidableEq

/-- `ResearchGraphState` (`research_schema.py`): the report-level state.
`human_analyst_feedback` is `none` when the key is absent or set to Python
`None`, and `some s` when a string `s` is present.  `content` is declared
`content: str` in the schema, so it is a string here. -/
structure ResearchGraphState where
  topic : List Char
  max_analysts : Nat
  human_analyst_feedback : Option (List Char)
  analysts : List Analyst
  sections : List (List Char)
  introduction : List Char
  content : List Char
  conclusion : List Char
  final_report : List Char
deriving DecidableEq

/-- `GenerateAnalystsState` is declared in `analyst_schema.py`, which is not
among the sources.  Modelled from the spec: per sections 4.1/4.2 it carries
the topic, the analyst cap, the optional human feedback and the analyst
panel — exactly the fields `analyst_subgraph.py` reads from it. -/
structure GenerateAnalystsState where
  topic : List Char
  max_analysts : Nat
  human_analyst_feedback : Option (List Char)
  analysts : List Analyst
deriving DecidableEq

/-- A partial state update returned by a graph node: `none` / `[]` means the
node did not write the channel.  The `sections` channel is accumulated with
`operator.add`, so an update contributes a list to append.  The `content`
channel carries a `PyVal` because `write_report` stores the whole reply
object there, not its text. -/
structure StateUpdate where
  topic : Option (List Char) := none
  max_analysts : Option Nat := none
  human_analyst_feedback : Option (Option (List Char)) := none
  analysts : Option (List Analyst) := none
  sections : List (List Char) := []
  introduction : Option (List Char) := none
  content : Option PyVal := none
  conclusion : Option (List Char) := none
  final_report : Option (List Char) := none
deriving DecidableEq

/-- `operator.add` merge for the `sections` channel
(`research_schema.py`, `sections: Annotated[list, operator.add]`): the new
contribution is appended to the accumulated list. -/
def sectionsMerge (old contribution : List (List Char)) : List (List Char) :=
  old ++ contribution

/-- A `Send("conduct_interview", {...})` packet produced by the fan-out. -/
structure SendPacket where
  analyst : Analyst
  messages : List ChatMessage
deriving DecidableEq

/-- Return value of `initiate_all_interviews`: either the node name
`"create_analysts"` or a list of `Send` packets. -/
inductive InterviewsRoute where
  | create_analysts : InterviewsRoute
  | sends : List SendPacket → InterviewsRoute
deriving DecidableEq

/-- `initiate_all_interviews` (`research_graph.py`): loop back to
`create_analysts` when the human feedback is truthy (a non-empty string);
otherwise dispatch one interview per analyst. -/
def initiate_all_interviews (state : ResearchGraphState) : InterviewsRoute :=
  let human_analyst_feedback := state.human_analyst_feedback.getD []
  if human_analyst_feedback ≠ [] then
    InterviewsRoute.create_analysts
  else
    let topic := state.topic
    InterviewsRoute.sends (state.analysts.map (fun analyst =>
      { analyst := analyst
        messages := [ChatMessage.human
          (str "So you said you were writing an article on " ++ topic ++ str "?")] }))

/-- Return value of `should_continue` (`analyst_subgraph.py`): the node name
`"create_analysts"` or `END`. -/
inductive AnalystRoute where
  | create_analysts : AnalystRoute
  | endRoute : AnalystRoute
deriving DecidableEq

/-- `should_continue` (`analyst_subgraph.py`): regenerate the panel when the
human feedback is truthy, otherwise end the sub-graph. -/
def should_continue (state : GenerateAnalystsState) : AnalystRoute :=
  let human_analyst_feedback := state.human_analyst_feedback.getD []
  if human_analyst_feedback ≠ [] then
    AnalystRoute.create_analysts
  else
    AnalystRoute.endRoute

/-- The `report_writer_instructions` template of `research_graph.py`, with
`.format(topic=..., context=...)` applied: the two placeholders are replaced
by the arguments. -/
def report_writer_instructions (topic context : List Char) : List Char :=
  str "You are a technical writer creating a report on this overall topic:\n\n" ++
  topic ++
  str "\n\nYou have a team of analysts. Each analyst has done two things:\n\n1. They conducted an interview with an expert on a specific sub-topic.\n2. They write up their finding into a memo.\n\nYour task:\n\n1. You will be given a collection of memos from your analysts.\n2. Think carefully about the insights from each memo.\n3. Consolidate these into a crisp overall summary that ties together the central ideas from all of the memos.\n4. Summarize the central points in each memo into a cohesive single narrative.\n\nTo format your report:\n\n1. Use markdown formatting.\n2. Include no pre-amble for the report.\n3. Use no sub-headings.\n4. Start your report with a single title header: ## Insights\n5. Do not mention any analyst names in your report.\n6. Preserve any citations in the memos, which will be annotated in brackets, for example [1] or [2].\n7. Create a final, consolidated list of sources and add to a Sources section with the \x27## Sources\x27 header.\n8. List your sources in order and do not repeat.\n\n[1] Source 1\n[2] Source 2\n\nHere are the memos from your analysts to build your report from:\n\n" ++
  context ++
  str "\n"

/-- The `intro_conclusion_instructions` template of `research_graph.py`,
with `.format(topic=..., formatted_str_sections=...)` applied. -/
def intro_conclusion_instructions (topic formatted_str_sections : List Char) : List Char :=
  str "You are a technical writer finishing a report on " ++
  topic ++
  str "\n\nYou will be given all of the sections of the report.\n\nYour job is to write a crisp and compelling introduction or conclusion section.\n\nThe user will instruct you whether to write the introduction or conclusion.\n\nInclude no pre-amble for either section.\n\nTarget around 100 words, crisply previewing (for introduction) or recapping (for conclusion) all of the sections of the report.\n\nUse markdown formatting.\n\nFor your introduction, create a compelling title and use the # header for the title.\n\nFor your introduction, use ## Introduction as the section header.\n\nFor your conclusion, use ## Conclusion as the section header.\n\nHere are the sections to reflect on for writing: " ++
  formatted_str_sections ++
  str "\n"

/-- The `formatted_str_sections` computed inside `write_report`
(`research_graph.py`): `"\n\n".join([f"{section}" for section in sections])`. -/
def write_report_sections_context (state : ResearchGraphState) : List Char :=
  List.intercalate (str "\n\n") (state.sections.map (fun sectionText => sectionText))

/-- The `formatted_str_sections` computed inside `write_introduction`
(`research_graph.py`): `"\n\n".join([f"{section}" for section in sections])`. -/
def write_introduction_sections_context (state : ResearchGraphState) : List Char :=
  List.intercalate (str "\n\n") (state.sections.map (fun sectionText => sectionText))

/-- The `formatted_str_sections` computed inside `write_conclusion`
(`research_graph.py`): `"\n\n".join([f"{section}" for section in sections])`. -/
def write_conclusion_sections_context (state : ResearchGraphState) : List Char :=
  List.intercalate (str "\n\n") (state.sections.map (fun sectionText => sectionText))

/-- `write_report` (`research_graph.py`): one model call over the
concatenated memos; NOTE the code returns `{"content": report}` where
`report` is the `AIMessage` object itself, not `report.content`. -/
def write_report (llm : LLM) (state : ResearchGraphState) : StateUpdate :=
  let topic := state.topic
  let formatted_str_sections := write_report_sections_context state
  let system_message := report_writer_instructions topic formatted_str_sections
  let report := llm.invoke
    [ChatMessage.system system_message,
     ChatMessage.human (str "Write a report based upon these memos.")]
  { content := some (PyVal.ofMsg report) }

/-- `write_introduction` (`research_graph.py`): one model call; the update
stores `introduction.content`, the reply text. -/
def write_introduction (llm : LLM) (state : ResearchGraphState) : StateUpdate :=
  let topic := state.topic
  let formatted_str_sections := write_introduction_sections_context state
  let system_message := intro_conclusion_instructions topic formatted_str_sections
  let introduction := llm.invoke
    [ChatMessage.system system_message,
     ChatMessage.human (str "Write an introduction for this report.")]
  { introduction := some introduction.content }

/-- `write_conclusion` (`research_graph.py`): one model call; the update
stores `conclusion.content`, the reply text. -/
def write_conclusion (llm : LLM) (state : ResearchGraphState) : StateUpdate :=
  let topic := state.topic
  let formatted_str_sections := write_conclusion_sections_context state
  let system_message := intro_conclusion_instructions topic formatted_str_sections
  let conclusion := llm.invoke
    [ChatMessage.system system_message,
     ChatMessage.human (str "Write a conclusion for this report.")]
  { conclusion := some conclusion.content }

/-- The literal `"## Insights"`. -/
def insightsMarker : List Char := str "## Insights"

/-- The literal `"## Sources"`. -/
def sourcesHeader : List Char := str "## Sources"

/-- The literal `"\n## Sources\n"` used as the split separator. -/
def sourcesSeparator : List Char := str "\n## Sources\n"

/-- The literal `"\n\n---\n\n"` joining the report parts. -/
def reportSeparator : List Char := str "\n\n---\n\n"

/-- First step of `finalize_report`: if `content.startswith("## Insights")`
then `content = content.strip("## Insights")` — a character-class strip. -/
def stripInsightsStep (content : List Char) : List Char :=
  if insightsMarker.isPrefixOf content then pyStrip insightsMarker content
  else content

/-- Second step of `finalize_report`: if `"## Sources" in content`, try
`content, sources = content.split("\n## Sources\n")`; a failing unpack
(not exactly two pieces) is swallowed by the bare `except`, leaving
`content` unchanged and `sources = None`. -/
def splitSourcesStep (content : List Char) : List Char × Option (List Char) :=
  if sourcesHeader <:+: content then
    match pySplit sourcesSeparator content with
    | [body, sources] => (body, some sources)
    | _ => (content, none)
  else
    (content, none)

/-- `finalize_report` (`research_graph.py`): strip the `## Insights` marker,
split off the sources, and assemble
`introduction + "\n\n---\n\n" + content + "\n\n---\n\n" + conclusion`,
appending `"\n\n---\n\n## Sources\n\n" + sources` when sources were split
off.  The returned update writes only `final_report`. -/
def finalize_report (state : ResearchGraphState) : StateUpdate :=
  let content := stripInsightsStep state.content
  let p := splitSourcesStep content
  let content := p.1
  let sources := p.2
  let final_report :=
    state.introduction ++ reportSeparator ++ content ++ reportSeparator ++ state.conclusion
  let final_report :=
    match sources with
    | some s => final_report ++ str "\n\n---\n\n## Sources\n\n" ++ s
    | none => final_report
  { final_report := some final_report }

end ResearchAssistant

namespace ResearchAssistant

/-- When `findOcc` reports an occurrence, the text decomposes around it and
the occurrence is the leftmost one: the separator is not contained in the
part before it. -/
theorem findOcc_some {sep : List Char} (hne : sep ≠ []) :
    ∀ {s pre post : List Char}, findOcc sep s = some (pre, post) →
      s = pre ++ sep ++ post ∧ ¬ sep <:+: pre := by
  intro s
  induction s with
  | nil => intro pre post h; simp [findOcc] at h
  | cons c cs ih =>
    intro pre post h
    by_cases hp : sep.isPrefixOf (c :: cs)
    · rw [findOcc, if_pos hp] at h
      obtain ⟨h1, h2⟩ := Prod.mk.injEq .. ▸ Option.some.inj h
      obtain ⟨t, ht⟩ := List.isPrefixOf_iff_prefix.mp hp
      subst h1
      have hdrop : (c :: cs).drop sep.length = t := by
        rw [← ht]; exact List.drop_left sep t
      constructor
      · rw [← h2, hdrop, ← ht]; rfl
      · intro hin
        rcases hin with ⟨u, v, huv⟩
        have : sep = [] := by
          have := List.append_eq_nil.mp ((List.append_eq_nil.mp huv).1)
          exact this.2
        exact hne this
    · rw [findOcc, if_neg hp] at h
      rcases hfo : findOcc sep cs with _ | ⟨pre', post'⟩
      · rw [hfo] at h; exact absurd h (by simp)
      · rw [hfo] at h
        obtain ⟨h1, h2⟩ := Prod.mk.injEq .. ▸ Option.some.inj h
        obtain ⟨hcs, hnin⟩ := ih hfo
        subst h1
        constructor
        · rw [← h2, hcs]; simp
        · intro hin
          rcases List.infix_cons_iff.mp hin with hpre | hinf
          · apply hp
            rw [ List.isPrefixOf_iff_prefix]
            calc sep <+: c :: pre' := hpre
              _ <+: (c :: pre') ++ (sep ++ post') := List.prefix_append _ _
              _ = c :: cs := by rw [hcs]; simp
          · exact hnin hinf

/-- When `findOcc` reports no occurrence, the separator does not occur. -/
theorem findOcc_none {sep : List Char} (hne : sep ≠ []) :
    ∀ {s : List Char}, findOcc sep s = none → ¬ sep <:+: s := by
  intro s
  induction s with
  | nil =>
    intro _ hin
    rcases hin with ⟨u, v, huv⟩
    exact hne (List.append_eq_nil.mp ((List.append_eq_nil.mp huv).1)).2
  | cons c cs ih =>
    intro h hin
    by_cases hp : sep.isPrefixOf (c :: cs)
    · rw [findOcc, if_pos hp] at h; exact absurd h (by simp)
    · rw [findOcc, if_neg hp] at h
      rcases hfo : findOcc sep cs with _ | ⟨pre', post'⟩
      · rcases List.infix_cons_iff.mp hin with hpre | hinf
        · exact hp ( List.isPrefixOf_iff_prefix.mpr hpre)
        · exact ih hfo hinf
      · rw [hfo] at h; exact absurd h (by simp)

/-- `pySplitFuel` never returns the empty list of pieces. -/
theorem pySplitFuel_ne_nil (sep : List Char) (fuel : Nat) (s : List Char) :
    pySplitFuel sep fuel s ≠ [] := by
  cases fuel with
  | zero => simp [pySplitFuel]
  | succ n =>
    rw [pySplitFuel]
    rcases hfo : findOcc sep s with _ | ⟨pre, post⟩ <;> simp

/-- A single piece out of `pySplitFuel` (with enough fuel) means no
occurrence of the separator. -/
theorem pySplitFuel_singleton {sep : List Char} {fuel : Nat} {s x : List Char}
    (hfuel : s.length < fuel) (h : pySplitFuel sep fuel s = [x]) :
    x = s ∧ findOcc sep s = none := by
  cases fuel with
  | zero => omega
  | succ n =>
    rw [pySplitFuel] at h
    rcases hfo : findOcc sep s with _ | ⟨pre, post⟩
    · rw [hfo] at h
      exact ⟨(List.cons.injEq .. ▸ h).1.symm, rfl⟩
    · rw [hfo] at h
      obtain ⟨-, h2⟩ := List.cons.injEq .. ▸ h
      exact absurd h2 (pySplitFuel_ne_nil sep n post)

/-- Exactly two pieces out of `pySplit` means the text decomposes around the
single occurrence of the separator: the separator occurs in neither piece,
so the cut is at the first (and only) occurrence. -/
theorem pySplit_pair {sep : List Char} (hne : sep ≠ []) {s a b : List Char}
    (h : pySplit sep s = [a, b]) :
    s = a ++ sep ++ b ∧ ¬ sep <:+: a ∧ ¬ sep <:+: b := by
  rw [pySplit, pySplitFuel] at h
  rcases hfo : findOcc sep s with _ | ⟨pre, post⟩
  · rw [hfo] at h; exact absurd h (by simp)
  · rw [hfo] at h
    obtain ⟨h1, h2⟩ := List.cons.injEq .. ▸ h
    obtain ⟨hs, hpre⟩ := findOcc_some hne hfo
    have hpostlen : post.length < s.length := by
      rw [hs]
      have : 0 < sep.length := List.length_pos.mpr hne
      simp only [List.length_append]
      omega
    obtain ⟨hb, hnone⟩ := pySplitFuel_singleton hpostlen h2
    subst h1 hb
    exact ⟨hs, hpre, findOcc_none hne hnone⟩

end ResearchAssistant
namespace ResearchAssistant

/-- C10: `finalize_report` writes only the `final_report` channel: for every
input state, the update it returns carries a `final_report` value and leaves
every other channel (topic, max_analysts, human_analyst_feedback, analysts,
sections, introduction, content, conclusion) untouched. -/
theorem finalize_report_writes_only_final_report (st : ResearchGraphState) :
    (finalize_report st).topic = none ∧
    (finalize_report st).max_analysts = none ∧
    (finalize_report st).human_analyst_feedback = none ∧
    (finalize_report st).analysts = none ∧
    (finalize_report st).sections = [] ∧
    (finalize_report st).introduction = none ∧
    (finalize_report st).content = none ∧
    (finalize_report st).conclusion = none ∧
    ∃ r, (finalize_report st).final_report = some r :=
  ⟨rfl, rfl, rfl, rfl, rfl, rfl, rfl, rfl, _, rfl⟩

/-- C9: `write_report`, `write_introduction` and `write_conclusion` each
compute their `formatted_str_sections` as `"\n\n".join(sections)` from the
same state, so the three model calls receive the identical concatenated
section text. -/
theorem three_writers_share_sections_context (st : ResearchGraphState) :
    write_report_sections_context st = write_introduction_sections_context st ∧
    write_introduction_sections_context st = write_conclusion_sections_context st ∧
    write_report_sections_context st = List.intercalate (str "\n\n") st.sections := by
  refine ⟨rfl, rfl, ?_⟩
  simp [write_report_sections_context]

/-- C5 (code evaluation): `write_report` builds its single model call from
the memos joined by a blank line, but the value it stores into the `content`
channel is the whole `AIMessage` object returned by `llm.invoke` — not the
raw report string `report.content` that the schema (`content: str`) and
`finalize_report`'s string operations require. -/
theorem write_report_stores_message_object (llm : LLM) (st : ResearchGraphState) :
    write_report llm st =
      { content := some (PyVal.ofMsg (llm.invoke
          [ChatMessage.system (report_writer_instructions st.topic
            (write_report_sections_context st)),
           ChatMessage.human (str "Write a report based upon these memos.")])) } ∧
    write_report_sections_context st = List.intercalate (str "\n\n") st.sections ∧
    ∀ t, (write_report llm st).content ≠ some (PyVal.ofStr t) := by
  refine ⟨rfl, by simp [write_report_sections_context], ?_⟩
  intro t h
  simp [write_report] at h

/-- C6: the human-review gate regenerates exactly when feedback is a
non-empty string: `should_continue` returns `"create_analysts"` iff the
feedback is a non-empty string and `END` iff it is empty or absent, and
`initiate_all_interviews` loops back to `"create_analysts"` iff the feedback
is a non-empty string and otherwise dispatches the interview fan-out. -/
theorem feedback_gate_regenerates_iff_nonempty
    (gs : GenerateAnalystsState) (rs : ResearchGraphState) :
    (should_continue gs = AnalystRoute.create_analysts ↔
      ∃ s, gs.human_analyst_feedback = some s ∧ s ≠ []) ∧
    (should_continue gs = AnalystRoute.endRoute ↔
      (gs.human_analyst_feedback = none ∨ gs.human_analyst_feedback = some [])) ∧
    (initiate_all_interviews rs = InterviewsRoute.create_analysts ↔
      ∃ s, rs.human_analyst_feedback = some s ∧ s ≠ []) ∧
    ((∃ packets, initiate_all_interviews rs = InterviewsRoute.sends packets) ↔
      (rs.human_analyst_feedback = none ∨ rs.human_analyst_feedback = some [])) := by
  rcases hgs : gs.human_analyst_feedback with _ | (_ | ⟨c, cs⟩) <;>
    rcases hrs : rs.human_analyst_feedback with _ | (_ | ⟨d, ds⟩) <;>
      simp [should_continue, initiate_all_interviews, hgs, hrs]

/-- C7: with empty or absent feedback, `initiate_all_interviews` returns one
`Send("conduct_interview", ...)` packet per element of `analysts`, in list
order, each carrying that analyst and an initial human message that mentions
the topic. -/
theorem fan_out_one_send_per_analyst (st : ResearchGraphState)
    (h : st.human_analyst_feedback = none ∨ st.human_analyst_feedback = some []) :
    ∃ packets, initiate_all_interviews st = InterviewsRoute.sends packets ∧
      packets.length = st.analysts.length ∧
      ∀ i (hi : i < packets.length) (hi2 : i < st.analysts.length),
        (packets.get ⟨i, hi⟩).analyst = st.analysts.get ⟨i, hi2⟩ ∧
        (packets.get ⟨i, hi⟩).messages =
          [ChatMessage.human
            (str "So you said you were writing an article on " ++ st.topic ++ str "?")] ∧
        st.topic <:+:
          (str "So you said you were writing an article on " ++ st.topic ++ str "?") := by
  have hfb : st.human_analyst_feedback.getD [] = [] := by
    rcases h with h | h <;> simp [h]
  refine ⟨st.analysts.map (fun analyst =>
      { analyst := analyst
        messages := [ChatMessage.human
          (str "So you said you were writing an article on " ++ st.topic ++ str "?")] }),
    ?_, by simp, ?_⟩
  · simp only [initiate_all_interviews, hfb]
    rw [if_neg (fun hh => hh rfl)]
  · intro i hi hi2
    refine ⟨?_, ?_, ⟨str "So you said you were writing an article on ", str "?", rfl⟩⟩ <;>
      simp [List.get_eq_getElem]

/-- Folding the `operator.add` merge over a batch of contributions appends
their concatenation. -/
theorem foldl_sectionsMerge (init : List (List Char)) (l : List (List (List Char))) :
    List.foldl sectionsMerge init l = init ++ l.flatten := by
  induction l generalizing init with
  | nil => simp
  | cons a l ih => simp [sectionsMerge, ih, List.flatten_cons]

/-- C8: the `sections` accumulator merges by list concatenation
(`operator.add`), so the merge is append-only — the accumulated list is a
prefix of the merged result, never overwritten — and folding any
permutation of the same interview results produces a permutation (equal
multiset) of the same sections. -/
theorem sections_merge_append_only_and_order_independent :
    (∀ old contribution, old <+: sectionsMerge old contribution) ∧
    (∀ results results' : List (List (List Char)),
        results.Perm results' →
        (List.foldl sectionsMerge [] results).Perm
          (List.foldl sectionsMerge [] results')) := by
  constructor
  · intro old contribution
    exact List.prefix_append old contribution
  · intro results results' h
    rw [foldl_sectionsMerge, foldl_sectionsMerge]
    simpa using h.flatten

end ResearchAssistant
namespace ResearchAssistant

/-- C3: when the literal `"\n## Sources\n"` occurs in the content reaching
the split step of `finalize_report`, either the split yields exactly two
pieces — then the content is cut at its first (and only) occurrence of the
separator, and the sources are reattached after a `"## Sources"` header — or
the unpacking anomaly is swallowed: content is kept unsplit, sources are
treated as absent, and the final report is still assembled (the step fails
open and never raises). -/
theorem finalize_sources_split_first_occurrence_fail_open (st : ResearchGraphState)
    (h : sourcesSeparator <:+: stripInsightsStep st.content) :
    (∃ body sources,
        splitSourcesStep (stripInsightsStep st.content) = (body, some sources) ∧
        stripInsightsStep st.content = body ++ sourcesSeparator ++ sources ∧
        ¬ sourcesSeparator <:+: body ∧
        (finalize_report st).final_report =
          some (st.introduction ++ reportSeparator ++ body ++ reportSeparator ++
            st.conclusion ++ str "\n\n---\n\n## Sources\n\n" ++ sources)) ∨
    ((pySplit sourcesSeparator (stripInsightsStep st.content)).length ≠ 2 ∧
        splitSourcesStep (stripInsightsStep st.content) =
          (stripInsightsStep st.content, none) ∧
        (finalize_report st).final_report =
          some (st.introduction ++ reportSeparator ++ stripInsightsStep st.content ++
            reportSeparator ++ st.conclusion)) := by
  have hguard : sourcesHeader <:+: stripInsightsStep st.content :=
    List.IsInfix.trans (by decide) h
  have hne : sourcesSeparator ≠ [] := by decide
  rcases hsp : pySplit sourcesSeparator (stripInsightsStep st.content) with
    _ | ⟨a, _ | ⟨b, _ | ⟨c, rest⟩⟩⟩
  · have hstep : splitSourcesStep (stripInsightsStep st.content) =
        (stripInsightsStep st.content, none) := by
      rw [splitSourcesStep, if_pos hguard, hsp]
    right
    exact ⟨by simp, hstep, by simp only [finalize_report, hstep]⟩
  · have hstep : splitSourcesStep (stripInsightsStep st.content) =
        (stripInsightsStep st.content, none) := by
      rw [splitSourcesStep, if_pos hguard, hsp]
    right
    exact ⟨by simp, hstep, by simp only [finalize_report, hstep]⟩
  · have hstep : splitSourcesStep (stripInsightsStep st.content) = (a, some b) := by
      rw [splitSourcesStep, if_pos hguard, hsp]
    obtain ⟨hdec, hna, hnb⟩ := pySplit_pair hne hsp
    left
    exact ⟨a, b, hstep, hdec, hna, by simp only [finalize_report, hstep]⟩
  · have hstep : splitSourcesStep (stripInsightsStep st.content) =
        (stripInsightsStep st.content, none) := by
      rw [splitSourcesStep, if_pos hguard, hsp]
    right
    exact ⟨by simp, hstep, by simp only [finalize_report, hstep]⟩

end ResearchAssistant
namespace ResearchAssistant

/-- The concrete state of the spec's finalization round-trip example:
content `"## Insights\nBody\n## Sources\n[1] A"`, introduction `"Intro"`,
conclusion `"Concl"`. -/
def roundTripState : ResearchGraphState :=
  { topic := [], max_analysts := 0, human_analyst_feedback := none, analysts := [],
    sections := [], introduction := str "Intro",
    content := str "## Insights\nBody\n## Sources\n[1] A",
    conclusion := str "Concl", final_report := [] }

/-- C1 counterexample: on the spec's round-trip example the code does NOT
produce the claimed string — `strip("## Insights")` removes the marker's
characters but keeps the newline right after the marker, so the body enters
the final report with a leading `"\n"`. -/
theorem finalize_round_trip_counterexample :
    (finalize_report roundTripState).final_report ≠
      some (str "Intro\n\n---\n\nBody\n\n---\n\nConcl\n\n---\n\n## Sources\n\n[1] A") ∧
    (finalize_report roundTripState).final_report =
      some (str "Intro\n\n---\n\n\nBody\n\n---\n\nConcl\n\n---\n\n## Sources\n\n[1] A") := by
  decide

/-- C1 amended: on the round-trip example, `finalize_report` strips the
marker's characters (leaving the following newline), extracts the sources,
and joins the parts with `"\n\n---\n\n"`, yielding
`"Intro\n\n---\n\n\nBody\n\n---\n\nConcl\n\n---\n\n## Sources\n\n[1] A"` —
with the body keeping its leading newline. -/
theorem finalize_round_trip_actual_output :
    (finalize_report roundTripState).final_report =
      some (str "Intro\n\n---\n\n\nBody\n\n---\n\nConcl\n\n---\n\n## Sources\n\n[1] A") := by
  decide

/-- A state whose content starts with the literal `"## Insights"` marker and
ends with a character of that marker's character class. -/
def charClassStripState : ResearchGraphState :=
  { topic := [], max_analysts := 0, human_analyst_feedback := none, analysts := [],
    sections := [], introduction := str "I",
    content := str "## Insights#",
    conclusion := str "C", final_report := [] }

/-- C2 counterexample: for content `"## Insights#"` (which starts with the
exact literal prefix `"## Insights"`), the trailing `"#"` is NOT carried
into the final report: `strip("## Insights")` removes characters of the
class `{#, space, I, n, s, i, g, h, t}` from BOTH ends, erasing the whole
content, so the assembled report is not the claimed
`"I\n\n---\n\n#\n\n---\n\nC"`. -/
theorem strip_exact_literal_counterexample :
    (finalize_report charClassStripState).final_report ≠
      some (str "I\n\n---\n\n#\n\n---\n\nC") ∧
    (finalize_report charClassStripState).final_report =
      some (str "I\n\n---\n\n\n\n---\n\nC") := by
  decide

/-- C2 amended: for every content string starting with the literal
`"## Insights"`, the strip step of `finalize_report` removes characters from
both ends only, and every removed character belongs to the character class
of `"## Insights"`; the surviving middle (a contiguous infix of content) is
what the assembly carries forward unchanged. -/
theorem strip_char_class_both_ends (content : List Char)
    (h : insightsMarker <+: content) :
    ∃ pre suf,
      content = pre ++ stripInsightsStep content ++ suf ∧
      (∀ c ∈ pre, c ∈ insightsMarker) ∧
      (∀ c ∈ suf, c ∈ insightsMarker) := by
  have hb : insightsMarker.isPrefixOf content = true := by
    rw [ List.isPrefixOf_iff_prefix]; exact h
  simp only [stripInsightsStep, if_pos hb, pyStrip]
  refine ⟨content.takeWhile (fun c => c ∈ insightsMarker),
    ((content.dropWhile (fun c => c ∈ insightsMarker)).reverse.takeWhile
      (fun c => c ∈ insightsMarker)).reverse, ?_, ?_, ?_⟩
  · conv_lhs => rw [← List.takeWhile_append_dropWhile
      (p := fun c => decide (c ∈ insightsMarker)) (l := content)]
    rw [List.append_assoc]
    congr 1
    rw [← List.reverse_append, List.takeWhile_append_dropWhile, List.reverse_reverse]
  · intro c hc
    simpa using List.mem_takeWhile_imp hc
  · intro c hc
    rw [List.mem_reverse] at hc
    simpa using List.mem_takeWhile_imp hc

/-- A state whose content is exactly the marker `"## Insights"` and contains
no `"## Sources"`. -/
def markerOnlyState : ResearchGraphState :=
  { topic := [], max_analysts := 0, human_analyst_feedback := none, analysts := [],
    sections := [], introduction := str "I",
    content := str "## Insights",
    conclusion := str "C", final_report := [] }

/-- C4 counterexample: content `"## Insights"` contains no `"## Sources"`,
yet the output is NOT `introduction ++ sep ++ content ++ sep ++ conclusion`:
the strip step erases the whole content first. -/
theorem content_unchanged_counterexample :
    (finalize_report markerOnlyState).final_report ≠
      some (str "I\n\n---\n\n## Insights\n\n---\n\nC") ∧
    (finalize_report markerOnlyState).final_report =
      some (str "I\n\n---\n\n\n\n---\n\nC") := by
  decide

/-- C4 amended: for every content that does not contain `"## Sources"` AND
does not start with `"## Insights"` (so the strip step does not fire), the
final report is exactly
`introduction ++ "\n\n---\n\n" ++ content ++ "\n\n---\n\n" ++ conclusion`,
with no sources section appended. -/
theorem finalize_no_sources_passthrough (st : ResearchGraphState)
    (h1 : ¬ sourcesHeader <:+: st.content)
    (h2 : ¬ insightsMarker <+: st.content) :
    (finalize_report st).final_report =
      some (st.introduction ++ reportSeparator ++ st.content ++ reportSeparator ++
        st.conclusion) := by
  have hb : ¬ insightsMarker.isPrefixOf st.content = true := by
    rw [ List.isPrefixOf_iff_prefix]; exact h2
  have hstrip : stripInsightsStep st.content = st.content := by
    rw [stripInsightsStep, if_neg hb]
  have hsplit : splitSourcesStep st.content = (st.content, none) := by
    rw [splitSourcesStep, if_neg h1]
  simp only [finalize_report, hstrip, hsplit]

end ResearchAssistant
namespace ResearchAssistant

/-- A concrete state whose content contains one `"\n## Sources\n"`
occurrence, for exercising the split theorem. -/
def sourcesSplitWitnessState : ResearchGraphState :=
  { topic := [], max_analysts := 0, human_analyst_feedback := none, analysts := [],
    sections := [], introduction := str "In",
    content := str "Body\n## Sources\n[1] A",
    conclusion := str "Co", final_report := [] }

/-- Witness: the fail-open split theorem applied at a concrete state. -/
theorem finalize_sources_split_witness :
    (∃ body sources,
        splitSourcesStep (stripInsightsStep sourcesSplitWitnessState.content) =
          (body, some sources) ∧
        stripInsightsStep sourcesSplitWitnessState.content =
          body ++ sourcesSeparator ++ sources ∧
        ¬ sourcesSeparator <:+: body ∧
        (finalize_report sourcesSplitWitnessState).final_report =
          some (sourcesSplitWitnessState.introduction ++ reportSeparator ++ body ++
            reportSeparator ++ sourcesSplitWitnessState.conclusion ++
            str "\n\n---\n\n## Sources\n\n" ++ sources)) ∨
    ((pySplit sourcesSeparator (stripInsightsStep sourcesSplitWitnessState.content)).length ≠ 2 ∧
        splitSourcesStep (stripInsightsStep sourcesSplitWitnessState.content) =
          (stripInsightsStep sourcesSplitWitnessState.content, none) ∧
        (finalize_report sourcesSplitWitnessState).final_report =
          some (sourcesSplitWitnessState.introduction ++ reportSeparator ++
            stripInsightsStep sourcesSplitWitnessState.content ++ reportSeparator ++
            sourcesSplitWitnessState.conclusion)) :=
  finalize_sources_split_first_occurrence_fail_open sourcesSplitWitnessState (by decide)

/-- A concrete two-analyst state with absent feedback, for exercising the
fan-out theorem. -/
def fanOutWitnessState : ResearchGraphState :=
  { topic := str "T", max_analysts := 2, human_analyst_feedback := none,
    analysts := [⟨str "A1", str "Org1", str "R1", str "D1"⟩,
                 ⟨str "A2", str "Org2", str "R2", str "D2"⟩],
    sections := [], introduction := [], content := [], conclusion := [],
    final_report := [] }

/-- Witness: the fan-out theorem applied at a concrete two-analyst state. -/
theorem fan_out_witness :
    ∃ packets, initiate_all_interviews fanOutWitnessState = InterviewsRoute.sends packets ∧
      packets.length = fanOutWitnessState.analysts.length ∧
      ∀ i (hi : i < packets.length) (hi2 : i < fanOutWitnessState.analysts.length),
        (packets.get ⟨i, hi⟩).analyst = fanOutWitnessState.analysts.get ⟨i, hi2⟩ ∧
        (packets.get ⟨i, hi⟩).messages =
          [ChatMessage.human
            (str "So you said you were writing an article on " ++
              fanOutWitnessState.topic ++ str "?")] ∧
        fanOutWitnessState.topic <:+:
          (str "So you said you were writing an article on " ++
            fanOutWitnessState.topic ++ str "?") :=
  fan_out_one_send_per_analyst fanOutWitnessState (Or.inl rfl)

/-- Witness: the character-class strip theorem applied at the concrete
content `"## Insights ok"`. -/
theorem strip_char_class_witness :
    ∃ pre suf,
      str "## Insights ok" = pre ++ stripInsightsStep (str "## Insights ok") ++ suf ∧
      (∀ c ∈ pre, c ∈ insightsMarker) ∧
      (∀ c ∈ suf, c ∈ insightsMarker) :=
  strip_char_class_both_ends (str "## Insights ok") (by decide)

/-- A concrete state whose content neither contains `"## Sources"` nor
starts with `"## Insights"`. -/
def passthroughWitnessState : ResearchGraphState :=
  { topic := [], max_analysts := 0, human_analyst_feedback := none, analysts := [],
    sections := [], introduction := str "In", content := str "plain body",
    conclusion := str "Co", final_report := [] }

/-- Witness: the no-sources passthrough theorem applied at a concrete
state. -/
theorem finalize_no_sources_witness :
    (finalize_report passthroughWitnessState).final_report =
      some (passthroughWitnessState.introduction ++ reportSeparator ++
        passthroughWitnessState.content ++ reportSeparator ++
        passthroughWitnessState.conclusion) :=
  finalize_no_sources_passthrough passthroughWitnessState (by decide) (by decide)

/-- Witness: the sections-merge theorem applied to concrete contributions,
with a concrete permutation. -/
theorem sections_merge_witness :
    ([str "m1"] <+: sectionsMerge [str "m1"] [str "m2"]) ∧
    (List.foldl sectionsMerge [] [[str "m1"], [str "m2"]]).Perm
      (List.foldl sectionsMerge [] [[str "m2"], [str "m1"]]) :=
  ⟨sections_merge_append_only_and_order_independent.1 [str "m1"] [str "m2"],
   sections_merge_append_only_and_order_independent.2 [[str "m1"], [str "m2"]]
     [[str "m2"], [str "m1"]] (by decide)⟩

end ResearchAssistant
